import Mathlib

/-!
Verification of the huse structured-data serialization framework
(JsonSerializer.cpp, Deserializer.hpp, helpers/StdVector.hpp).

The JSON writer is embedded as pure state-passing functions over `JState`,
whose `out` field is the byte stream produced so far (`std::ostream& m_out`
in the source, modelled as a list of byte values).  Each embedded function
mirrors one member function of `huse::JsonSerializer`.  The deserializer
side embeds the key-lookup wrappers of `huse::DeserializerObject` together
with the compile-time capability dispatch of `DeserializerNode::val`; the
concrete JSON reader backend is not part of the sources and is modelled
from the specification where a claim needs it.
-/

namespace Huse

/-- Bytes of an ASCII string (the byte stream the C++ code writes through
`std::ostream`). -/
def strBytes (s : String) : List Nat := s.data.map Char.toNat

/-- State of a `huse::JsonSerializer`: the output stream produced so far
(`m_out`), the pretty-print flag (`m_pretty`), the per-scope has-value flag
(`m_hasValue`), the array-just-opened flag (`m_arrayJustOpen`) and the
nesting depth (`m_depth`). -/
structure JState where
  out : List Nat
  pretty : Bool
  hasValue : Bool := false
  arrayJustOpen : Bool := false
  depth : Nat := 0
deriving DecidableEq, Repr

/-- A freshly constructed serializer: `JsonSerializer::JsonSerializer`. -/
def jinit (pretty : Bool) : JState := { out := [], pretty := pretty }

/-- The bytes `JsonSerializer::newLine` appends: nothing in compact mode,
otherwise a newline plus a two-space indent per nesting level. -/
def newLineBytes (s : JState) : List Nat :=
  if !s.pretty then []
  else 10 :: (List.replicate s.depth (strBytes "  ")).flatten

/-- `JsonSerializer::newLine`. -/
def newLine (s : JState) : JState :=
  { s with out := s.out ++ newLineBytes s }

/-- `JsonSerializer::prepareWriteVal`: a comma (plus new line) if the scope
already holds a value, just a new line if an array was just opened, and in
all cases the scope is marked as holding a value. -/
def prepareWriteVal (s : JState) : JState :=
  if s.hasValue then
    { s with out := s.out ++ [44] ++ newLineBytes s, hasValue := true }
  else if s.arrayJustOpen then
    { s with out := s.out ++ newLineBytes s, arrayJustOpen := false, hasValue := true }
  else
    { s with hasValue := true }

/-- `JsonSerializer::writeSimpleValue`: prepare, then stream the value's
text (`m_out << val`). -/
def writeSimpleValue (text : List Nat) (s : JState) : JState :=
  let s' := prepareWriteVal s
  { s' with out := s'.out ++ text }

/-- `JsonSerializer::throwException` exactly as defined at
JsonSerializer.cpp:232: the body is empty, so the call changes nothing and
returns normally. -/
def throwException (_text : String) (s : JState) : JState := s

/-- `JsonSerializer::write(bool)`. -/
def writeBool (b : Bool) (s : JState) : JState :=
  writeSimpleValue (strBytes (if b then "true" else "false")) s

/-- `JsonSerializer::write` for the integer widths of 32 bits or fewer
(short, unsigned short, int, unsigned int): streamed directly with no
range check. -/
def writeSmallInt (val : Int) (s : JState) : JState :=
  writeSimpleValue (strBytes (toString val)) s

/-- `JsonSerializer::writePotentiallyBigIntegerValue`, parametrized by
`sizeof(T)` in bytes and the signedness of `T` (the `if constexpr`
branches of the template). -/
def writePotentiallyBigIntegerValue (size : Nat) (signed : Bool) (val : Int)
    (s : JState) : JState :=
  if size ≤ 4 then
    writeSimpleValue (strBytes (toString val)) s
  else if signed then
    if -9007199254740992 ≤ val ∧ val ≤ 9007199254740992 then
      writeSimpleValue (strBytes (toString val)) s
    else
      throwException "integer too big" s
  else
    if val ≤ 9007199254740992 then
      writeSimpleValue (strBytes (toString val)) s
    else
      throwException "integer too big" s

/-- A float or double value as the writer observes it: the result of
`std::isfinite` and, for the finite case, the default numeric text
conversion `operator<<` would produce. -/
structure FloatV where
  isFinite : Bool
  text : String
deriving DecidableEq, Repr

/-- `JsonSerializer::writeFloatValue`. -/
def writeFloatValue (v : FloatV) (s : JState) : JState :=
  if v.isFinite then
    writeSimpleValue (strBytes v.text) s
  else
    throwException "float not finite" s

/-- One iteration of the loop in `JsonSerializer::writeEscapedUTF8String`
for the byte `b`.  `char` is signed on the mainstream platforms the code
targets, so a byte at or above 0x80 compares negative in `c >= ' '` and
`c < 16`.  In `m_out << prefix << std::hex << c << std::dec` the operand
`c` has type `char`, so the stream inserts the character itself — the
`std::hex` manipulator does not apply — and the raw byte follows the
prefix. -/
def escChar (b : Nat) : List Nat :=
  if b = 34 then [92, 34]
  else if b = 92 then [92, 92]
  else if b = 10 then [92, 110]
  else if b = 13 then [92, 114]
  else if b = 8 then [92, 98]
  else if b = 9 then [92, 116]
  else if b = 12 then [92, 102]
  else
    let ci : Int := if b < 128 then (b : Int) else (b : Int) - 256
    if 32 ≤ ci then [b]
    else
      let pfx := if ci < 16 then strBytes "\\u000" else strBytes "\\u00"
      pfx ++ [b]

/-- The bytes `JsonSerializer::writeEscapedUTF8String` sends to the stream:
an opening quote, each input byte escaped per `escChar`, a closing quote. -/
def escapedUTF8String (bs : List Nat) : List Nat :=
  34 :: (bs.map escChar).flatten ++ [34]

/-- `JsonSerializer::write(std::string_view)`. -/
def writeString (bs : List Nat) (s : JState) : JState :=
  let s' := prepareWriteVal s
  { s' with out := s'.out ++ escapedUTF8String bs }

/-- `JsonSerializer::pushKey`: separating comma if the scope already holds
a value, new line, escaped key text, colon, and the has-value flag reset so
the following write is the key's value. -/
def pushKey (k : List Nat) (s : JState) : JState :=
  let s1 := if s.hasValue then { s with out := s.out ++ [44] } else s
  let s2 := { s1 with out := s1.out ++ newLineBytes s1 }
  { s2 with out := s2.out ++ escapedUTF8String k ++ [58], hasValue := false }

/-- `JsonSerializer::writeRawJson`: push the key, then splice the fragment
bytes verbatim and mark the scope as holding a value. -/
def writeRawJson (k json : List Nat) (s : JState) : JState :=
  let s' := pushKey k s
  { s' with out := s'.out ++ json, hasValue := true }

/-- `JsonSerializer::open`: prepare, emit the opening bracket, clear the
has-value flag and increment the depth. -/
def jopen (c : Nat) (s : JState) : JState :=
  let s' := prepareWriteVal s
  { s' with out := s'.out ++ [c], hasValue := false, depth := s'.depth + 1 }

/-- `JsonSerializer::close`: `assert(m_depth)` makes closing with no open
scope a programming-error violation, modelled as `none`; otherwise the
depth is decremented before the (pretty-mode) new line, the closing bracket
is emitted and the scope is marked as holding a value. -/
def jclose (c : Nat) (s : JState) : Option JState :=
  if s.depth = 0 then none
  else
    let s1 := { s with depth := s.depth - 1 }
    let s2 := if s1.hasValue then newLine s1 else s1
    some { s2 with out := s2.out ++ [c], hasValue := true }

/-- `JsonSerializer::openObject`. -/
def openObject (s : JState) : JState := jopen 123 s

/-- `JsonSerializer::closeObject`. -/
def closeObject (s : JState) : Option JState := jclose 125 s

/-- `JsonSerializer::openArray`: open a bracket and raise the
array-just-opened flag. -/
def openArray (s : JState) : JState :=
  { jopen 91 s with arrayJustOpen := true }

/-- `JsonSerializer::closeArray`. -/
def closeArray (s : JState) : Option JState :=
  (jclose 93 s).map fun s' => { s' with arrayJustOpen := false }

/-- `JsonSerializer::~JsonSerializer` runs `assert(m_depth == 0)`:
destruction is only legal when every scope has been closed. -/
def destructorOk (s : JState) : Bool := s.depth == 0

/-- One call of the writer protocol against a `JsonSerializer`. -/
inductive WOp where
  | openObj
  | closeObj
  | openArr
  | closeArr
  | wkey (k : List Nat)
  | wbool (b : Bool)
  | wint (n : Int)
  | wbig (size : Nat) (signed : Bool) (n : Int)
  | wfloat (v : FloatV)
  | wstr (bs : List Nat)
  | wraw (k json : List Nat)
deriving DecidableEq, Repr

/-- Execute one writer call; `none` when a close violates the depth
assertion. -/
def runOp : WOp → JState → Option JState
  | .openObj, s => some (openObject s)
  | .closeObj, s => closeObject s
  | .openArr, s => some (openArray s)
  | .closeArr, s => closeArray s
  | .wkey k, s => some (pushKey k s)
  | .wbool b, s => some (writeBool b s)
  | .wint n, s => some (writeSmallInt n s)
  | .wbig size signed n, s => some (writePotentiallyBigIntegerValue size signed n s)
  | .wfloat v, s => some (writeFloatValue v s)
  | .wstr bs, s => some (writeString bs s)
  | .wraw k json, s => some (writeRawJson k json s)

/-- Execute a sequence of writer calls. -/
def runOps (ops : List WOp) (s : JState) : Option JState :=
  match ops with
  | [] => some s
  | op :: rest => match runOp op s with
    | some s' => runOps rest s'
    | none => none

/-! ## Deserializer side (Deserializer.hpp) -/

/-- First entry for key `k` in document order, as the reader backend's
current-object state exposes it. -/
def findKey (es : List (String × α)) (k : String) : Option α :=
  match es with
  | [] => none
  | (k', v) :: rest => if k' = k then some v else findKey rest k

/-- Modelled from the spec: `Deserializer::loadKey` is a pure-virtual
backend operation whose JSON implementation is not among the sources; per
the spec ("Load key(name) [required]: advance the reader's current-object
cursor position to the named key; fails if absent") it positions at the
key's value or raises a data error. -/
def loadKey (es : List (String × α)) (k : String) : Except String α :=
  match findKey es k with
  | some v => .ok v
  | none => .error "key not found"

/-- Modelled from the spec: `Deserializer::tryLoadKey` is a pure-virtual
backend operation whose JSON implementation is not among the sources; per
the spec ("Try-load key(name) [optional]: same, but returns a
found/not-found result instead of failing") it positions at the key's
value and reports found, or reports not found. -/
def tryLoadKey (es : List (String × α)) (k : String) : Option α :=
  findKey es k

/-- `DeserializerObject::key`: delegate to `loadKey` and hand back the
node positioned at the key's value. -/
def objKey (es : List (String × α)) (k : String) : Except String α :=
  loadKey es k

/-- `DeserializerObject::optkey`: if `tryLoadKey` succeeds return the node
positioned at the key's value, otherwise a null node (`nullptr`). -/
def objOptkey (es : List (String × α)) (k : String) : Option α :=
  tryLoadKey es k

/-- `DeserializerObject::val(std::string_view, std::optional<T>&)`:
when `optkey` finds the key, read the value at it into a freshly engaged
optional (`open->val(v.emplace())`, where `rd` abstracts the node's `val`
for the element type); otherwise disengage the optional (`v.reset()`). -/
def objValOpt (rd : α → Except String β) (es : List (String × α)) (k : String) :
    Except String (Option β) :=
  match objOptkey es k with
  | some v => (rd v).map some
  | none => .ok none

/-- The compile-time capabilities of a type `T`, as detected by
`impl::HasDeserializeMethod`, `impl::HasDeserializeFunc` and
`impl::HasDeserializerRead`. -/
structure DeserCaps where
  hasDeserializeMethod : Bool
  hasDeserializeFunc : Bool
  hasDeserializerRead : Bool
deriving DecidableEq, Repr

/-- The strategy `DeserializerNode::val` compiles to; `buildError` stands
for the `cannot_deserialize(v)` branch, a call to a function declared
nowhere, so instantiating it cannot build. -/
inductive DeserStrategy where
  | method
  | freeFunc
  | nativeRead
  | buildError
deriving DecidableEq, Repr

/-- The `if constexpr` chain of `DeserializerNode::val`. -/
def valDispatch (c : DeserCaps) : DeserStrategy :=
  if c.hasDeserializeMethod then .method
  else if c.hasDeserializeFunc then .freeFunc
  else if c.hasDeserializerRead then .nativeRead
  else .buildError

/-! ## A JSON string reader, modelled from the spec

The JSON reader backend is not among the sources (only the abstract
`Deserializer` interface is), so the reader used to state the round-trip
property is modelled from the spec: a JSON string token is a quoted run in
which `\" \\ \/ \n \r \b \t \f` denote themselves, `\uXXXX` holds four
hexadecimal digits denoting a code point, any other byte at or above 0x20
denotes itself, and anything else is malformed input (a data error). -/

/-- Value of one hexadecimal digit byte, or `none`. -/
def hexDigitVal (b : Nat) : Option Nat :=
  if 48 ≤ b ∧ b ≤ 57 then some (b - 48)
  else if 97 ≤ b ∧ b ≤ 102 then some (b - 87)
  else if 65 ≤ b ∧ b ≤ 70 then some (b - 55)
  else none

/-- Modelled from the spec: decode the body of a JSON string token up to
and including its closing quote, which must end the input. -/
def readStringBody : List Nat → Option (List Nat)
  | [] => none
  | 34 :: rest => if rest.isEmpty then some [] else none
  | 92 :: e :: rest =>
    if e = 34 ∨ e = 92 ∨ e = 47 then (readStringBody rest).map (e :: ·)
    else if e = 110 then (readStringBody rest).map (10 :: ·)
    else if e = 114 then (readStringBody rest).map (13 :: ·)
    else if e = 98 then (readStringBody rest).map (8 :: ·)
    else if e = 116 then (readStringBody rest).map (9 :: ·)
    else if e = 102 then (readStringBody rest).map (12 :: ·)
    else if e = 117 then
      match rest with
      | h1 :: h2 :: h3 :: h4 :: rest' =>
        match hexDigitVal h1, hexDigitVal h2, hexDigitVal h3, hexDigitVal h4 with
        | some d1, some d2, some d3, some d4 =>
          (readStringBody rest').map ((((d1 * 16 + d2) * 16 + d3) * 16 + d4) :: ·)
        | _, _, _, _ => none
      | _ => none
    else none
  | b :: rest =>
    if 32 ≤ b then (readStringBody rest).map (b :: ·)
    else none

/-- Modelled from the spec: read one complete JSON string token, returning
the decoded code points, or `none` on malformed input (a data error). -/
def readJsonString (bs : List Nat) : Option (List Nat) :=
  match bs with
  | 34 :: rest => readStringBody rest
  | _ => none

/-! ## Helper lemmas -/

lemma prepareWriteVal_depth (s : JState) : (prepareWriteVal s).depth = s.depth := by
  unfold prepareWriteVal
  split
  · rfl
  · split <;> rfl

/-! ## Claims -/

/-- Claim C1: the spec demands that writing a non-finite float fail with a
data error "float not finite"; the code calls
`throwException("float not finite")`, but that function's body
(JsonSerializer.cpp:232) is empty, so the write emits nothing and returns
normally with no error signalled, while finite values (including 0 and -0)
are emitted via the default numeric text conversion. -/
theorem json_write_nonfinite_float_no_error :
    writeFloatValue ⟨false, "nan"⟩ (jinit false) = jinit false ∧
    writeFloatValue ⟨false, "inf"⟩ (jinit false) = jinit false ∧
    (writeFloatValue ⟨true, "0"⟩ (jinit false)).out = strBytes "0" ∧
    (writeFloatValue ⟨true, "-0"⟩ (jinit false)).out = strBytes "-0" ∧
    (writeFloatValue ⟨true, "1.5"⟩ (jinit false)).out = strBytes "1.5" := by
  decide

/-- Claim C2: widths of 32 bits or fewer are emitted with no range check,
and a wider value within ±9007199254740992 is emitted; but for a wider
value beyond that bound the code calls `throwException("integer too big")`
whose body (JsonSerializer.cpp:232) is empty, so the write emits nothing
and returns normally with no data error signalled. -/
theorem json_write_bigint_out_of_range_no_error :
    writePotentiallyBigIntegerValue 8 true 9007199254740993 (jinit false) = jinit false ∧
    writePotentiallyBigIntegerValue 8 true (-9007199254740993) (jinit false) = jinit false ∧
    writePotentiallyBigIntegerValue 8 false 9007199254740993 (jinit false) = jinit false ∧
    (writePotentiallyBigIntegerValue 8 true 9007199254740992 (jinit false)).out
      = strBytes "9007199254740992" ∧
    (writePotentiallyBigIntegerValue 8 true (-9007199254740992) (jinit false)).out
      = strBytes "-9007199254740992" ∧
    (writePotentiallyBigIntegerValue 8 false 9007199254740992 (jinit false)).out
      = strBytes "9007199254740992" ∧
    (writePotentiallyBigIntegerValue 4 true 2147483647 (jinit false)).out
      = strBytes "2147483647" := by
  decide

/-- Claim C3: the escaper emits `\u000` or `\u00` followed by the RAW byte
for a control character — `m_out << std::hex << c` inserts `c` as a
character, so no hexadecimal digits are produced — contradicting the
spec's `\u00XX` hexadecimal escape; a byte at or above 0x80 (negative as a
signed `char`) is likewise prefixed instead of passing through; the seven
short escapes do work as specified. -/
theorem json_escape_control_char_no_hex_digits :
    escapedUTF8String [1] = [34, 92, 117, 48, 48, 48, 1, 34] ∧
    escapedUTF8String [1] ≠ strBytes "\"\\u0001\"" ∧
    escapedUTF8String [31] = [34, 92, 117, 48, 48, 31, 34] ∧
    escapedUTF8String [31] ≠ strBytes "\"\\u001f\"" ∧
    escapedUTF8String [206] = [34, 92, 117, 48, 48, 48, 206, 34] ∧
    escapedUTF8String [206] ≠ [34, 206, 34] ∧
    escapedUTF8String (strBytes "a\"b\\c\nd\te") = strBytes "\"a\\\"b\\\\c\\nd\\te\"" := by
  decide

/-- Claim C4: round-trip fails for text holding a control character — the
writer emits `"\u000` plus the raw byte 0x01 for the one-byte string 0x01,
which the spec-modelled JSON string reader rejects as malformed (no four
hexadecimal digits follow `\u`) — while text made of JSON-special but
printable characters, and text using the short escapes, does round-trip. -/
theorem json_string_roundtrip_fails_on_control_char :
    readJsonString ((writeString [1] (jinit false)).out) = none ∧
    readJsonString ((writeString (strBytes "a\"b\\c") (jinit false)).out)
      = some (strBytes "a\"b\\c") ∧
    readJsonString ((writeString (strBytes "x\ny\tz") (jinit false)).out)
      = some (strBytes "x\ny\tz") := by
  decide

/-- Claim C5: serializing the object mapping "a" to 1 and "b" to the array
[true, false] (the absent optional element simply not written) in compact
mode produces exactly the bytes of `\x7b"a":1,"b":[true,false]\x7d`. -/
theorem json_compact_example_object_bytes :
    (runOps [.openObj, .wkey (strBytes "a"), .wint 1, .wkey (strBytes "b"),
             .openArr, .wbool true, .wbool false, .closeArr, .closeObj]
      (jinit false)).map JState.out
      = some (strBytes "\x7b\"a\":1,\"b\":[true,false]\x7d") := by
  decide

/-- Claim C6: `DeserializerNode::val` selects exactly one strategy, in
priority order: the type's own `huseDeserialize` method, else a free
`huseDeserialize` function, else the backend's native primitive read, else
the `cannot_deserialize` branch, which names a function declared nowhere
and therefore cannot build (never a runtime failure). -/
theorem deserializer_val_dispatch_priority (c : DeserCaps) :
    (valDispatch c = .method ↔ c.hasDeserializeMethod = true) ∧
    (valDispatch c = .freeFunc ↔
      c.hasDeserializeMethod = false ∧ c.hasDeserializeFunc = true) ∧
    (valDispatch c = .nativeRead ↔
      c.hasDeserializeMethod = false ∧ c.hasDeserializeFunc = false ∧
      c.hasDeserializerRead = true) ∧
    (valDispatch c = .buildError ↔
      c.hasDeserializeMethod = false ∧ c.hasDeserializeFunc = false ∧
      c.hasDeserializerRead = false) := by
  obtain ⟨m, f, r⟩ := c
  cases m <;> cases f <;> cases r <;> decide

/-- Witness for C6 at a concrete capability set. -/
theorem deserializer_val_dispatch_priority_witness :
    valDispatch ⟨false, true, true⟩ = .freeFunc :=
  ((deserializer_val_dispatch_priority ⟨false, true, true⟩).2.1).mpr (by decide)

/-- Claim C7: on an object, the required lookup `key` positions at the
key's value when present and fails with a data error when absent, while
`optkey` on the same object returns the positioned node when present and a
null node, without failing, when absent. -/
theorem object_key_vs_optkey (es : List (String × α)) (k : String) :
    match findKey es k with
    | some v => objKey es k = .ok v ∧ objOptkey es k = some v
    | none => objKey es k = .error "key not found" ∧ objOptkey es k = none := by
  cases h : findKey es k <;> simp [objKey, objOptkey, loadKey, tryLoadKey, h]

/-- Witness for C7 on a concrete object, present and absent key. -/
theorem object_key_vs_optkey_witness :
    (objKey [("a", (1 : Int))] "a" = .ok 1 ∧ objOptkey [("a", (1 : Int))] "a" = some 1) ∧
    (objKey [("a", (1 : Int))] "b" = .error "key not found" ∧
      objOptkey [("a", (1 : Int))] "b" = none) := by
  constructor
  · simpa using object_key_vs_optkey [("a", (1 : Int))] "a"
  · simpa using object_key_vs_optkey [("a", (1 : Int))] "b"

/-- Claim C8: each open increments the nesting depth by exactly one; a
close with no open scope trips the `assert(m_depth)` programming-error
check (and only then), a successful close decrements the depth by exactly
one, and the destructor's `assert(m_depth == 0)` accepts exactly the
states with no open scope; the depth, a natural number never decremented
at zero, is never negative. -/
theorem serializer_scope_depth (s : JState) (c : Nat) :
    (jopen c s).depth = s.depth + 1 ∧
    (jclose c s = none ↔ s.depth = 0) ∧
    (∀ s', jclose c s = some s' → s'.depth + 1 = s.depth) ∧
    (destructorOk s = true ↔ s.depth = 0) := by
  refine ⟨?_, ?_, ?_, ?_⟩
  · show (prepareWriteVal s).depth + 1 = s.depth + 1
    rw [prepareWriteVal_depth]
  · unfold jclose
    split <;> simp_all
  · intro s' heq
    unfold jclose at heq
    split at heq
    · simp at heq
    next h =>
      rw [Option.some_inj] at heq
      subst heq
      show (if s.hasValue then newLine _ else _).depth + 1 = s.depth
      split <;> simp [newLine] <;> omega
  · simp [destructorOk]

/-- Witness for C8: open raises the depth of a fresh serializer to one,
closing a fresh serializer trips the assertion, a close at depth one lands
at depth zero, and the destructor accepts the fresh serializer. -/
theorem serializer_scope_depth_witness :
    (jopen 123 (jinit false)).depth = (jinit false).depth + 1 ∧
    jclose 125 (jinit false) = none ∧
    (⟨[125], false, true, false, 0⟩ : JState).depth + 1
      = (⟨[], false, false, false, 1⟩ : JState).depth ∧
    destructorOk (jinit false) = true := by
  refine ⟨(serializer_scope_depth (jinit false) 123).1,
    (serializer_scope_depth (jinit false) 125).2.1.mpr rfl,
    (serializer_scope_depth (⟨[], false, false, false, 1⟩ : JState) 125).2.2.1
      (⟨[125], false, true, false, 0⟩ : JState) (by decide),
    (serializer_scope_depth (jinit false) 125).2.2.2.mpr rfl⟩

/-- Claim C9: `writeRawJson` emits the key exactly as the ordinary key
write `pushKey` does — a separating comma when the scope already holds a
value, the (pretty-mode) new line, the escaped key text, a colon — then
the fragment bytes verbatim with no escaping, and marks the scope as
holding a value; depth, mode and array flag are untouched. -/
theorem writeRawJson_emits_key_then_fragment (k j : List Nat) (s : JState) :
    writeRawJson k j s
      = { pushKey k s with out := (pushKey k s).out ++ j, hasValue := true } ∧
    (writeRawJson k j s).out
      = s.out ++ (if s.hasValue then [44] else []) ++ newLineBytes s
          ++ escapedUTF8String k ++ [58] ++ j ∧
    (writeRawJson k j s).hasValue = true ∧
    (writeRawJson k j s).depth = s.depth ∧
    (writeRawJson k j s).pretty = s.pretty ∧
    (writeRawJson k j s).arrayJustOpen = s.arrayJustOpen := by
  by_cases h : s.hasValue <;>
    simp [writeRawJson, pushKey, newLineBytes, h, List.append_assoc]

/-- Witness for C9 at a concrete key, fragment and state. -/
theorem writeRawJson_emits_key_then_fragment_witness :
    (writeRawJson (strBytes "k") (strBytes "[1]") (jinit false)).out
      = strBytes "\"k\":[1]" := by
  rw [(writeRawJson_emits_key_then_fragment (strBytes "k") (strBytes "[1]")
    (jinit false)).2.1]
  decide

/-- Claim C10: reading a key into an optional via
`DeserializerObject::val(k, std::optional<T>&)` never fails on account of
the key being absent: when the key is absent the optional is disengaged
and the operation succeeds, and when the key is present the optional is
engaged with the result of reading the value at the key. -/
theorem objValOpt_absent_is_not_an_error (rd : α → Except String β)
    (es : List (String × α)) (k : String) :
    (findKey es k = none → objValOpt rd es k = .ok none) ∧
    (∀ v, findKey es k = some v → objValOpt rd es k = (rd v).map some) := by
  constructor
  · intro h
    simp [objValOpt, objOptkey, tryLoadKey, h]
  · intro v h
    simp [objValOpt, objOptkey, tryLoadKey, h]

/-- Witness for C10 on a concrete object, absent and present key. -/
theorem objValOpt_absent_is_not_an_error_witness :
    objValOpt (fun n => (Except.ok n : Except String Int)) [("a", (1 : Int))] "b"
      = .ok none ∧
    objValOpt (fun n => (Except.ok n : Except String Int)) [("a", (1 : Int))] "a"
      = .ok (some 1) := by
  constructor
  · exact (objValOpt_absent_is_not_an_error _ [("a", (1 : Int))] "b").1 (by decide)
  · have h := (objValOpt_absent_is_not_an_error
      (fun n => (Except.ok n : Except String Int)) [("a", (1 : Int))] "a").2 1 (by decide)
    rw [h]
    rfl

end Huse
